import Mathlib

/-!
Verification of the per-device streaming state coordinator of AutoGLM-GUI,
embedded from src/frontend/src/routes/chat.tsx.

The TypeScript component keeps a React state value
`deviceStates : Map<string, DeviceState>` and changes it only through
functional updaters passed to `setDeviceStates(prev => ...)`; each such
updater is embedded below as a function on a `Store`.  Machine-irrelevant
presentation code is not modelled.  The source field `initialized` is
called `inited` here; the opaque JSON action records are modelled as
strings, and timestamps as naturals.
-/

namespace AutoGLM

/-- Message role, from the Message interface of chat.tsx (lines 23-33). -/
inductive Role where
  | user
  | agent
  deriving DecidableEq

/-- Display mode preference of a device (chat.tsx line 45). -/
inductive DisplayMode where
  | auto
  | video
  | screenshot
  deriving DecidableEq

/-- Chat message (chat.tsx lines 23-33). -/
structure Message where
  id : String
  role : Role
  content : String
  timestamp : Nat
  steps : Option Nat := none
  success : Option Bool := none
  thinking : Option (List String) := none
  actions : Option (List String) := none
  isStreaming : Option Bool := none
  deriving DecidableEq

/-- Screenshot fetch result, the ScreenshotResponse shape consumed by
chat.tsx (fields used at lines 173-175 and 775-811). -/
structure ScreenshotResponse where
  success : Bool
  image : String := ""
  width : Nat := 0
  height : Nat := 0
  is_sensitive : Bool := false
  error : Option String := none
  deriving DecidableEq

/-- Handle returned by sendMessageStream; chat.tsx only stores it and
calls close() (line 41, lines 373-374, 392-393).  The closed flag models
whether close() has been called on it. -/
structure StreamHandle where
  sid : Nat
  closed : Bool
  deriving DecidableEq

/-- Per-device state record (chat.tsx lines 36-47).  The field `inited`
models the source field `initialized`. -/
structure DeviceState where
  messages : List Message
  loading : Bool
  error : Option String
  inited : Bool
  currentStream : Option StreamHandle
  screenshot : Option ScreenshotResponse
  useVideoStream : Bool
  videoStreamFailed : Bool
  displayMode : DisplayMode
  tapFeedback : Option String
  deriving DecidableEq

/-- The default record used when a device has no entry yet
(chat.tsx lines 80-92 and 102-113; both literals are identical). -/
def defaultDeviceState : DeviceState :=
  { messages := []
    loading := false
    error := none
    inited := false
    currentStream := none
    screenshot := none
    useVideoStream := true
    videoStreamFailed := false
    displayMode := DisplayMode.auto
    tapFeedback := none }

/-- The deviceStates map (chat.tsx line 55), as a partial function from
device id to state.  Every updater replaces the whole map value
(copy-on-write), which a pure function models exactly. -/
def Store : Type := String → Option DeviceState

def emptyStore : Store := fun _ => none

/-- A TypeScript Partial of DeviceState: a field that is `some v` is
present in the update object and overrides, a `none` field is absent. -/
structure DevicePatch where
  messages : Option (List Message) := none
  loading : Option Bool := none
  error : Option (Option String) := none
  inited : Option Bool := none
  currentStream : Option (Option StreamHandle) := none
  screenshot : Option (Option ScreenshotResponse) := none
  useVideoStream : Option Bool := none
  videoStreamFailed : Option Bool := none
  displayMode : Option DisplayMode := none
  tapFeedback : Option (Option String) := none

/-- The object-spread merge at chat.tsx line 114:
a new record where present patch fields override the current state. -/
def mergeState (st : DeviceState) (p : DevicePatch) : DeviceState :=
  { messages := p.messages.getD st.messages
    loading := p.loading.getD st.loading
    error := p.error.getD st.error
    inited := p.inited.getD st.inited
    currentStream := p.currentStream.getD st.currentStream
    screenshot := p.screenshot.getD st.screenshot
    useVideoStream := p.useVideoStream.getD st.useVideoStream
    videoStreamFailed := p.videoStreamFailed.getD st.videoStreamFailed
    displayMode := p.displayMode.getD st.displayMode
    tapFeedback := p.tapFeedback.getD st.tapFeedback }

/-- updateDeviceState (chat.tsx lines 96-117).  The functional updater
reads the device's current record from its argument (the latest
snapshot), falls back to the default record, merges the patch into it,
and writes only that key. -/
def updateDeviceState (d : String) (p : DevicePatch) (prev : Store) : Store :=
  let cur := (prev d).getD defaultDeviceState
  fun x => if x = d then some (mergeState cur p) else prev x

/-- Step event delivered to onStep (api StepEvent; chat.tsx line 279). -/
structure StepEvent where
  step : Nat
  thinking : String
  action : String
  deriving DecidableEq

/-- Done event delivered to onDone (chat.tsx line 308). -/
structure DoneEvent where
  message : String
  success : Bool
  deriving DecidableEq

/-- Error event delivered to onError (chat.tsx line 335). -/
structure ErrorEvent where
  message : String
  deriving DecidableEq

/-- The per-send accumulation buffers currentThinkingRef and
currentActionsRef (chat.tsx lines 74-75), reset to empty at each send
(lines 254-255). -/
structure SendRefs where
  thinking : List String
  actions : List String
  deriving DecidableEq

/-- The store write performed by the onStep callback (chat.tsx lines
287-305): if the send's device has no entry, return the previous
snapshot unchanged; otherwise replace, in every message whose id equals
the placeholder id, the thinking and actions arrays with the accumulated
buffers and the steps field with the event's step count, and write the
device's record back with only `messages` changed. -/
def stepWrite (d mid : String) (th ac : List String) (n : Nat) (prev : Store) : Store :=
  match prev d with
  | none => prev
  | some state =>
      let updated := state.messages.map fun msg =>
        if msg.id == mid then
          { msg with thinking := some th, actions := some ac, steps := some n }
        else msg
      fun x => if x = d then some { state with messages := updated } else prev x

/-- The whole onStep callback (chat.tsx lines 279-306): push the event's
thinking and action onto the private buffers, then perform the store
write with full replacement copies of the buffers. -/
def onStepRun (d mid : String) (ev : StepEvent) (refs : SendRefs) (store : Store) :
    SendRefs × Store :=
  let r := SendRefs.mk (refs.thinking ++ [ev.thinking]) (refs.actions ++ [ev.action])
  (r, stepWrite d mid r.thinking r.actions ev.step store)

/-- The onDone callback's store write (chat.tsx lines 308-333). -/
def doneWrite (d mid : String) (ev : DoneEvent) (prev : Store) : Store :=
  match prev d with
  | none => prev
  | some state =>
      let updated := state.messages.map fun msg =>
        if msg.id == mid then
          { msg with content := ev.message, success := some ev.success,
                     isStreaming := some false }
        else msg
      fun x =>
        if x = d then
          some { state with messages := updated, loading := false, currentStream := none }
        else prev x

/-- The onError callback's store write (chat.tsx lines 335-361). -/
def errWrite (d mid : String) (ev : ErrorEvent) (prev : Store) : Store :=
  match prev d with
  | none => prev
  | some state =>
      let updated := state.messages.map fun msg =>
        if msg.id == mid then
          { msg with content := "错误: " ++ ev.message, success := some false,
                     isStreaming := some false }
        else msg
      fun x =>
        if x = d then
          some { state with messages := updated, loading := false, currentStream := none,
                            error := some ev.message }
        else prev x

/-- First store update of handleSend (chat.tsx lines 245-249): append the
user message to the messages snapshot captured at render time (`snap` is
`currentState.messages`), set loading, clear the error. -/
def handleSendUpdate1 (d : String) (snap : List Message) (u : Message) : Store → Store :=
  updateDeviceState d
    { messages := some (snap ++ [u]), loading := some true, error := some none }

/-- Second store update of handleSend (chat.tsx lines 270-272): overwrite
messages with the same render-time snapshot plus the user message and the
placeholder agent message. -/
def handleSendUpdate2 (d : String) (snap : List Message) (u a : Message) : Store → Store :=
  updateDeviceState d { messages := some (snap ++ [u, a]) }

/-- Lookup of the placeholder message by id, the `msg.id === agentMessageId`
keying used by all three stream callbacks. -/
def findMsg (msgs : List Message) (mid : String) : Option Message :=
  msgs.find? fun m => m.id == mid

/-- The close() call on a stream handle (chat.tsx lines 373-374 and
392-393 call it through currentState.currentStream.close()). -/
def closeHandle (h : StreamHandle) : StreamHandle :=
  { h with closed := true }

/-- Modelled from the spec: the delivery behaviour of the handle returned
by sendMessageStream lives in src/frontend/src/api.ts, which is not part
of the sources here; the spec requires that "closing the activeStream
handle must stop further event delivery to this multiplexer instance;
after close, no further store writes may occur for that send".  So an
event delivered on a closed handle invokes no callback and leaves the
store untouched; on an open handle it runs the callback's store write. -/
def deliverEvent (h : StreamHandle) (cb : Store → Store) (store : Store) : Store :=
  if h.closed then store else cb store

/-- handleReset (chat.tsx lines 369-387): close the device's active
stream if any, then clear messages, loading, error and the stream handle.
The first component is the handle as it exists after the close call. -/
def handleReset (d : String) (store : Store) : Option StreamHandle × Store :=
  let h := match store d with
    | some st => st.currentStream.map closeHandle
    | none => none
  (h, updateDeviceState d
        { messages := some [], loading := some false, error := some none,
          currentStream := some none } store)

/-- handleDeviceChange (chat.tsx lines 390-398): if the current device
has an active stream, close it and clear it from state; the selection
switch itself is presentation state and not part of the store. -/
def handleDeviceChange (d : String) (store : Store) : Option StreamHandle × Store :=
  match store d with
  | some st =>
      match st.currentStream with
      | some h => (some (closeHandle h), updateDeviceState d { currentStream := some none } store)
      | none => (none, store)
  | none => (none, store)

/-- Effective display mode, the derivation stated in the spec for the
display-mode arbiter. -/
inductive EffMode where
  | video
  | screenshot
  deriving DecidableEq

def effectiveMode : DisplayMode → Bool → EffMode
  | DisplayMode.video, _ => EffMode.video
  | DisplayMode.screenshot, _ => EffMode.screenshot
  | DisplayMode.auto, failed => if failed then EffMode.screenshot else EffMode.video

/-- The video-vs-screenshot render condition of chat.tsx lines 707-711
(for a selected device): render the video player when displayMode is
video, or when it is auto and useVideoStream holds and the stream has not
failed. -/
def renderVideoCond (st : DeviceState) : Bool :=
  st.displayMode == DisplayMode.video ||
    (st.displayMode == DisplayMode.auto && st.useVideoStream && !st.videoStreamFailed)

/-- Written from the spec's words for comparison: the auto branch checks
not videoStreamFailed alone, without the useVideoStream conjunct. -/
def renderVideoCondSpec (st : DeviceState) : Bool :=
  st.displayMode == DisplayMode.video ||
    (st.displayMode == DisplayMode.auto && !st.videoStreamFailed)

/-- shouldPollScreenshots (chat.tsx lines 157-159). -/
def shouldPollScreenshots (st : DeviceState) : Bool :=
  st.displayMode == DisplayMode.screenshot ||
    (st.displayMode == DisplayMode.auto && st.videoStreamFailed)

/-- State of the screenshot polling loop: the in-flight guard
screenshotFetchingRef (chat.tsx line 71) plus the store. -/
structure PollState where
  fetching : Bool
  store : Store

/-- Start of a polling tick, chat.tsx lines 165-171: if a fetch is in
flight the tick returns immediately (false: no fetch issued, nothing
changed); otherwise the guard is set and a fetch is issued (true). -/
def tickStart (ps : PollState) : PollState × Bool :=
  if ps.fetching then (ps, false)
  else ({ ps with fetching := true }, true)

/-- Completion of a fetch, chat.tsx lines 172-181: `none` models a thrown
exception (logged, store untouched); a response is stored only when its
success flag is set; the guard is always released in the finally block. -/
def fetchDone (d : String) (res : Option ScreenshotResponse) (ps : PollState) : PollState :=
  let store' := match res with
    | some data =>
        if data.success then
          updateDeviceState d { screenshot := some (some data) } ps.store
        else ps.store
    | none => ps.store
  { fetching := false, store := store' }

/-- Every store operation performed by chat.tsx, one constructor per
setDeviceStates call site (directly or through updateDeviceState):
handleInit success / failure (lines 210, 213-218), the three updates of
handleSend (245-249, 270-272, 365), the screenshot store (175), the reset
patch (378-383), the stream clear on device switch (394), the three
display-mode buttons (665, 678, 691-693), the ScrcpyPlayer onFallback
patch (725-728), the tap/swipe feedback patches (731-768), and the three
stream callbacks.  The first argument of each constructor is the device
id it writes. -/
inductive Op where
  | initOk (d : String)
  | initErr (d : String) (msg : String)
  | sendUser (d : String) (snap : List Message) (u : Message)
  | sendPlaceholder (d : String) (snap : List Message) (u a : Message)
  | sendSetStream (d : String) (h : StreamHandle)
  | screenshotOk (d : String) (data : ScreenshotResponse)
  | resetDevice (d : String)
  | clearStream (d : String)
  | setDisplayMode (d : String) (m : DisplayMode)
  | videoFallback (d : String)
  | setTapFeedback (d : String) (msg : Option String)
  | stepEv (d : String) (mid : String) (th ac : List String) (n : Nat)
  | doneEv (d : String) (mid : String) (ev : DoneEvent)
  | errorEv (d : String) (mid : String) (ev : ErrorEvent)

def Op.dev : Op → String
  | Op.initOk d => d
  | Op.initErr d _ => d
  | Op.sendUser d _ _ => d
  | Op.sendPlaceholder d _ _ _ => d
  | Op.sendSetStream d _ => d
  | Op.screenshotOk d _ => d
  | Op.resetDevice d => d
  | Op.clearStream d => d
  | Op.setDisplayMode d _ => d
  | Op.videoFallback d => d
  | Op.setTapFeedback d _ => d
  | Op.stepEv d _ _ _ _ => d
  | Op.doneEv d _ _ => d
  | Op.errorEv d _ _ => d

def applyOp : Op → Store → Store
  | Op.initOk d => updateDeviceState d { inited := some true, error := some none }
  | Op.initErr d msg => updateDeviceState d { error := some (some msg) }
  | Op.sendUser d snap u => handleSendUpdate1 d snap u
  | Op.sendPlaceholder d snap u a => handleSendUpdate2 d snap u a
  | Op.sendSetStream d h => updateDeviceState d { currentStream := some (some h) }
  | Op.screenshotOk d data => updateDeviceState d { screenshot := some (some data) }
  | Op.resetDevice d =>
      updateDeviceState d
        { messages := some [], loading := some false, error := some none,
          currentStream := some none }
  | Op.clearStream d => updateDeviceState d { currentStream := some none }
  | Op.setDisplayMode d m => updateDeviceState d { displayMode := some m }
  | Op.videoFallback d =>
      updateDeviceState d { videoStreamFailed := some true, useVideoStream := some false }
  | Op.setTapFeedback d msg => updateDeviceState d { tapFeedback := some msg }
  | Op.stepEv d mid th ac n => stepWrite d mid th ac n
  | Op.doneEv d mid ev => doneWrite d mid ev
  | Op.errorEv d mid ev => errWrite d mid ev

def applyOps : List Op → Store → Store
  | [], s => s
  | op :: rest, s => applyOps rest (applyOp op s)

/-- An item of one send's event history: either a step event delivered to
this send's onStep callback, or any other store operation (in particular
updates for other devices) interleaved with it. -/
inductive SendItem where
  | step (ev : StepEvent)
  | other (op : Op)

/-- True when an interleaved item does not target device d. -/
def SendItem.offDevice (d : String) : SendItem → Bool
  | SendItem.step _ => true
  | SendItem.other op => !(Op.dev op == d)

/-- The step events of a send history, in delivery order. -/
def stepEvents : List SendItem → List StepEvent
  | [] => []
  | SendItem.step ev :: rest => ev :: stepEvents rest
  | SendItem.other _ :: rest => stepEvents rest

/-- Run one send's history: step items go through the onStep callback
(private buffers plus store write), other items are applied to the store
directly. -/
def runSend (d mid : String) : List SendItem → SendRefs → Store → SendRefs × Store
  | [], refs, store => (refs, store)
  | SendItem.step ev :: rest, refs, store =>
      let out := onStepRun d mid ev refs store
      runSend d mid rest out.1 out.2
  | SendItem.other op :: rest, refs, store => runSend d mid rest refs (applyOp op store)

/-! Helper lemmas shared by the claim theorems. -/

lemma updateDeviceState_ne (d : String) (p : DevicePatch) (store : Store)
    (x : String) (hx : x ≠ d) : updateDeviceState d p store x = store x := by
  simp [updateDeviceState, hx]

lemma stepWrite_ne (d mid : String) (th ac : List String) (n : Nat) (store : Store)
    (x : String) (hx : x ≠ d) : stepWrite d mid th ac n store x = store x := by
  rcases hd : store d with _ | st <;> simp [stepWrite, hd, hx]

lemma doneWrite_ne (d mid : String) (ev : DoneEvent) (store : Store)
    (x : String) (hx : x ≠ d) : doneWrite d mid ev store x = store x := by
  rcases hd : store d with _ | st <;> simp [doneWrite, hd, hx]

lemma errWrite_ne (d mid : String) (ev : ErrorEvent) (store : Store)
    (x : String) (hx : x ≠ d) : errWrite d mid ev store x = store x := by
  rcases hd : store d with _ | st <;> simp [errWrite, hd, hx]

/-- Frame property of a single operation: an operation keyed to one
device never changes any other key of the store. -/
lemma applyOp_frame (op : Op) (store : Store) (x : String) (hx : x ≠ Op.dev op) :
    applyOp op store x = store x := by
  cases op with
  | initOk d => exact updateDeviceState_ne d _ store x hx
  | initErr d msg => exact updateDeviceState_ne d _ store x hx
  | sendUser d snap u => exact updateDeviceState_ne d _ store x hx
  | sendPlaceholder d snap u a => exact updateDeviceState_ne d _ store x hx
  | sendSetStream d h => exact updateDeviceState_ne d _ store x hx
  | screenshotOk d data => exact updateDeviceState_ne d _ store x hx
  | resetDevice d => exact updateDeviceState_ne d _ store x hx
  | clearStream d => exact updateDeviceState_ne d _ store x hx
  | setDisplayMode d m => exact updateDeviceState_ne d _ store x hx
  | videoFallback d => exact updateDeviceState_ne d _ store x hx
  | setTapFeedback d msg => exact updateDeviceState_ne d _ store x hx
  | stepEv d mid th ac n => exact stepWrite_ne d mid th ac n store x hx
  | doneEv d mid ev => exact doneWrite_ne d mid ev store x hx
  | errorEv d mid ev => exact errWrite_ne d mid ev store x hx

/-- find? by message id commutes with mapping an id-preserving function. -/
lemma findMsg_map (f : Message → Message) (hf : ∀ m, (f m).id = m.id) (mid : String) :
    ∀ (msgs : List Message) (m : Message), findMsg msgs mid = some m →
      findMsg (msgs.map f) mid = some (f m) := by
  intro msgs
  induction msgs with
  | nil => intro m h; simp [findMsg] at h
  | cons a tl ih =>
      intro m h
      unfold findMsg at h ⊢
      rw [List.map_cons]
      rw [List.find?_cons_eq_some] at h ⊢
      simp only [hf]
      rcases h with ⟨h1, h2⟩ | ⟨h1, h2⟩
      · exact Or.inl ⟨h1, by rw [h2]⟩
      · exact Or.inr ⟨h1, ih m h2⟩

/-- A found message satisfies the id predicate. -/
lemma findMsg_id (msgs : List Message) (mid : String) (m : Message)
    (h : findMsg msgs mid = some m) : m.id == mid := by
  unfold findMsg at h
  have hx := List.find?_some h
  exact hx

/-- Claim C10: each of the three stream callbacks returns the previous
store snapshot unchanged when the send's device has no state record at
application time. -/
theorem callbacks_missing_state_noop
    (d mid : String) (th ac : List String) (n : Nat)
    (evd : DoneEvent) (eve : ErrorEvent) (store : Store)
    (h : store d = none) :
    stepWrite d mid th ac n store = store ∧
    doneWrite d mid evd store = store ∧
    errWrite d mid eve store = store := by
  refine ⟨?_, ?_, ?_⟩ <;> simp [stepWrite, doneWrite, errWrite, h]

theorem callbacks_missing_state_noop_witness :
    stepWrite "D1" "a1" ["t"] ["x"] 1 emptyStore = emptyStore ∧
    doneWrite "D1" "a1" ⟨"ok", true⟩ emptyStore = emptyStore ∧
    errWrite "D1" "a1" ⟨"boom"⟩ emptyStore = emptyStore :=
  callbacks_missing_state_noop "D1" "a1" ["t"] ["x"] 1 ⟨"ok", true⟩ ⟨"boom"⟩ emptyStore rfl

/-- Claim C4: an update keyed to device A (through updateDeviceState or
any of the three stream callback writers) leaves every other device's
entry in the new snapshot unchanged. -/
theorem device_state_isolation
    (dA dB : String) (p : DevicePatch) (mid : String) (th ac : List String) (n : Nat)
    (evd : DoneEvent) (eve : ErrorEvent) (store : Store)
    (hne : dB ≠ dA) :
    updateDeviceState dA p store dB = store dB ∧
    stepWrite dA mid th ac n store dB = store dB ∧
    doneWrite dA mid evd store dB = store dB ∧
    errWrite dA mid eve store dB = store dB :=
  ⟨updateDeviceState_ne dA p store dB hne, stepWrite_ne dA mid th ac n store dB hne,
   doneWrite_ne dA mid evd store dB hne, errWrite_ne dA mid eve store dB hne⟩

theorem device_state_isolation_witness :
    updateDeviceState "D1" { loading := some true } emptyStore "D2" = emptyStore "D2" ∧
    stepWrite "D1" "a1" ["t"] ["x"] 1 emptyStore "D2" = emptyStore "D2" ∧
    doneWrite "D1" "a1" ⟨"ok", true⟩ emptyStore "D2" = emptyStore "D2" ∧
    errWrite "D1" "a1" ⟨"boom"⟩ emptyStore "D2" = emptyStore "D2" :=
  device_state_isolation "D1" "D2" { loading := some true } "a1" ["t"] ["x"] 1
    ⟨"ok", true⟩ ⟨"boom"⟩ emptyStore (by decide)

/-- Claim C3: handleReset and handleDeviceChange close the active stream
handle, and a closed handle is inert: any step, done or error event
delivered on it afterwards performs no store write at all, so the
affected device's state is unchanged. -/
theorem closed_stream_no_writes :
    (∀ (h : StreamHandle) (cb : Store → Store) (s : Store),
        deliverEvent (closeHandle h) cb s = s) ∧
    (∀ (d : String) (s : Store) (h : StreamHandle),
        (handleReset d s).1 = some h → h.closed = true) ∧
    (∀ (d : String) (s : Store) (h : StreamHandle),
        (handleDeviceChange d s).1 = some h → h.closed = true) ∧
    (∀ (d mid : String) (th ac : List String) (n : Nat) (evd : DoneEvent)
        (eve : ErrorEvent) (h : StreamHandle) (s : Store), h.closed = true →
        deliverEvent h (stepWrite d mid th ac n) s = s ∧
        deliverEvent h (doneWrite d mid evd) s = s ∧
        deliverEvent h (errWrite d mid eve) s = s) := by
  refine ⟨?_, ?_, ?_, ?_⟩
  · intro h cb s
    simp [deliverEvent, closeHandle]
  · intro d s h hh
    rcases hd : s d with _ | st
    · simp [handleReset, hd] at hh
    · simp [handleReset, hd] at hh
      rcases hh with ⟨h0, hh0, hh1⟩
      rw [← hh1]
      rfl
  · intro d s h hh
    rcases hd : s d with _ | st
    · simp [handleDeviceChange, hd] at hh
    · rcases hcs : st.currentStream with _ | h0
      · simp [handleDeviceChange, hd, hcs] at hh
      · simp [handleDeviceChange, hd, hcs] at hh
        rw [← hh]
        rfl
  · intro d mid th ac n evd eve h s hc
    refine ⟨?_, ?_, ?_⟩ <;> simp [deliverEvent, hc]

theorem closed_stream_no_writes_witness :
    deliverEvent (closeHandle ⟨0, false⟩) (stepWrite "D1" "a1" ["t"] ["x"] 1) emptyStore =
      emptyStore ∧
    deliverEvent (⟨0, true⟩ : StreamHandle) (doneWrite "D1" "a1" ⟨"ok", true⟩) emptyStore =
      emptyStore := by
  have h := closed_stream_no_writes
  exact ⟨h.1 ⟨0, false⟩ (stepWrite "D1" "a1" ["t"] ["x"] 1) emptyStore,
    (h.2.2.2 "D1" "a1" ["t"] ["x"] 1 ⟨"ok", true⟩ ⟨"boom"⟩ ⟨0, true⟩ emptyStore rfl).2.1⟩

/-- Claim C8: a polling tick that finds a fetch in flight is a no-op
(issues no fetch, changes nothing); a fetch only starts when none is in
flight; a successful fetch stores its result; a failed fetch (exception
or success flag false) leaves the store, hence the previous screenshot,
unchanged; the guard is always released on completion. -/
theorem screenshot_poll_guard
    (ps : PollState) (d : String) (data : ScreenshotResponse) :
    (ps.fetching = true → tickStart ps = (ps, false)) ∧
    ((tickStart ps).2 = true → ps.fetching = false ∧ (tickStart ps).1.fetching = true) ∧
    (data.success = true →
      ∃ st, (fetchDone d (some data) ps).store d = some st ∧ st.screenshot = some data) ∧
    (data.success = false → (fetchDone d (some data) ps).store = ps.store) ∧
    (fetchDone d none ps).store = ps.store ∧
    (fetchDone d (some data) ps).fetching = false := by
  refine ⟨?_, ?_, ?_, ?_, ?_, ?_⟩
  · intro h
    simp [tickStart, h]
  · intro h
    by_cases hf : ps.fetching
    · simp [tickStart, hf] at h
    · simp at hf
      simp [tickStart, hf]
  · intro h
    refine ⟨mergeState ((ps.store d).getD defaultDeviceState)
      { screenshot := some (some data) }, ?_, ?_⟩
    · simp [fetchDone, h, updateDeviceState]
    · simp [mergeState]
  · intro h
    simp [fetchDone, h]
  · simp [fetchDone]
  · rfl

theorem screenshot_poll_guard_witness :
    tickStart ⟨true, emptyStore⟩ = (⟨true, emptyStore⟩, false) ∧
    (∃ st, (fetchDone "D1" (some ⟨true, "i", 2, 1, false, none⟩)
        ⟨false, emptyStore⟩).store "D1" = some st ∧
      st.screenshot = some ⟨true, "i", 2, 1, false, none⟩) ∧
    (fetchDone "D1" none ⟨false, emptyStore⟩).store = emptyStore := by
  have h1 := (screenshot_poll_guard ⟨true, emptyStore⟩ "D1" ⟨true, "i", 2, 1, false, none⟩).1 rfl
  have h2 := screenshot_poll_guard ⟨false, emptyStore⟩ "D1" ⟨true, "i", 2, 1, false, none⟩
  exact ⟨h1, h2.2.2.1 rfl, h2.2.2.2.2.1⟩

/-- Claim C7: under the store invariant useVideoStream = not
videoStreamFailed (established for every reachable state by the C9
theorem), the effective display mode is the stated pure function of
displayMode and videoStreamFailed, and both the video-render condition
and the screenshot-polling condition agree with that derivation. -/
theorem effective_mode_agreement (st : DeviceState)
    (hinv : st.useVideoStream = !st.videoStreamFailed) :
    (renderVideoCond st = true ↔
      effectiveMode st.displayMode st.videoStreamFailed = EffMode.video) ∧
    (shouldPollScreenshots st = true ↔
      effectiveMode st.displayMode st.videoStreamFailed = EffMode.screenshot) ∧
    (∀ b, effectiveMode DisplayMode.video b = EffMode.video) ∧
    (∀ b, effectiveMode DisplayMode.screenshot b = EffMode.screenshot) ∧
    (∀ b, effectiveMode DisplayMode.auto b =
      if b then EffMode.screenshot else EffMode.video) := by
  rcases st with ⟨msgs, l, e, i, cs, sc, uvs, vsf, dm, tf⟩
  cases dm <;> cases vsf <;>
    simp_all [renderVideoCond, shouldPollScreenshots, effectiveMode]

theorem effective_mode_agreement_witness :
    (renderVideoCond defaultDeviceState = true ↔
      effectiveMode defaultDeviceState.displayMode defaultDeviceState.videoStreamFailed =
        EffMode.video) ∧
    (shouldPollScreenshots defaultDeviceState = true ↔
      effectiveMode defaultDeviceState.displayMode defaultDeviceState.videoStreamFailed =
        EffMode.screenshot) ∧
    (∀ b, effectiveMode DisplayMode.video b = EffMode.video) ∧
    (∀ b, effectiveMode DisplayMode.screenshot b = EffMode.screenshot) ∧
    (∀ b, effectiveMode DisplayMode.auto b =
      if b then EffMode.screenshot else EffMode.video) :=
  effective_mode_agreement defaultDeviceState rfl

/-! Shape lemmas for the three stream-callback writers: each either
leaves the queried key unchanged or rewrites the send's device entry in
the stated way. -/

lemma stepWrite_entry (d mid : String) (th ac : List String) (n : Nat)
    (store : Store) (x : String) :
    stepWrite d mid th ac n store x = store x ∨
    (∃ st0, store d = some st0 ∧ x = d ∧
      stepWrite d mid th ac n store x =
        some { st0 with messages := st0.messages.map fun msg =>
          if msg.id == mid then
            { msg with thinking := some th, actions := some ac, steps := some n }
          else msg }) := by
  rcases hdd : store d with _ | st0
  · left
    simp [stepWrite, hdd]
  · by_cases hx : x = d
    · subst hx
      right
      exact ⟨st0, rfl, rfl, by simp [stepWrite, hdd]⟩
    · left
      exact stepWrite_ne d mid th ac n store x hx

lemma doneWrite_entry (d mid : String) (ev : DoneEvent) (store : Store) (x : String) :
    doneWrite d mid ev store x = store x ∨
    (∃ st0, store d = some st0 ∧ x = d ∧
      doneWrite d mid ev store x =
        some { st0 with
          messages := st0.messages.map fun msg =>
            if msg.id == mid then
              { msg with content := ev.message, success := some ev.success,
                         isStreaming := some false }
            else msg,
          loading := false, currentStream := none }) := by
  rcases hdd : store d with _ | st0
  · left
    simp [doneWrite, hdd]
  · by_cases hx : x = d
    · subst hx
      right
      exact ⟨st0, rfl, rfl, by simp [doneWrite, hdd]⟩
    · left
      exact doneWrite_ne d mid ev store x hx

lemma errWrite_entry (d mid : String) (ev : ErrorEvent) (store : Store) (x : String) :
    errWrite d mid ev store x = store x ∨
    (∃ st0, store d = some st0 ∧ x = d ∧
      errWrite d mid ev store x =
        some { st0 with
          messages := st0.messages.map fun msg =>
            if msg.id == mid then
              { msg with content := "错误: " ++ ev.message, success := some false,
                         isStreaming := some false }
            else msg,
          loading := false, currentStream := none, error := some ev.message }) := by
  rcases hdd : store d with _ | st0
  · left
    simp [errWrite, hdd]
  · by_cases hx : x = d
    · subst hx
      right
      exact ⟨st0, rfl, rfl, by simp [errWrite, hdd]⟩
    · left
      exact errWrite_ne d mid ev store x hx

/-- The store invariant relating the two video-health flags. -/
def stInv (st : DeviceState) : Prop :=
  st.useVideoStream = !st.videoStreamFailed

lemma update_stInv (d : String) (p : DevicePatch)
    (hp : (p.useVideoStream = none ∧ p.videoStreamFailed = none) ∨
          (p.useVideoStream = some false ∧ p.videoStreamFailed = some true))
    (store : Store) (hstore : ∀ x st, store x = some st → stInv st) :
    ∀ x st, updateDeviceState d p store x = some st → stInv st := by
  intro x st hx
  by_cases hxd : x = d
  · subst hxd
    rcases hd : store x with _ | st0
    · simp [updateDeviceState, hd] at hx
      rw [← hx]
      rcases hp with ⟨h1, h2⟩ | ⟨h1, h2⟩ <;>
        simp [stInv, mergeState, h1, h2, defaultDeviceState]
    · simp [updateDeviceState, hd] at hx
      rw [← hx]
      rcases hp with ⟨h1, h2⟩ | ⟨h1, h2⟩
      · simpa [stInv, mergeState, h1, h2] using hstore x st0 hd
      · simp [stInv, mergeState, h1, h2]
  · rw [updateDeviceState_ne d p store x hxd] at hx
    exact hstore x st hx

lemma stepWrite_stInv (d mid : String) (th ac : List String) (n : Nat)
    (store : Store) (hstore : ∀ x st, store x = some st → stInv st) :
    ∀ x st, stepWrite d mid th ac n store x = some st → stInv st := by
  intro x st hx
  rcases stepWrite_entry d mid th ac n store x with he | ⟨st0, hdd, hxd, he⟩
  · rw [he] at hx
    exact hstore x st hx
  · rw [he] at hx
    simp at hx
    rw [← hx]
    simpa [stInv] using hstore d st0 hdd

lemma doneWrite_stInv (d mid : String) (ev : DoneEvent)
    (store : Store) (hstore : ∀ x st, store x = some st → stInv st) :
    ∀ x st, doneWrite d mid ev store x = some st → stInv st := by
  intro x st hx
  rcases doneWrite_entry d mid ev store x with he | ⟨st0, hdd, hxd, he⟩
  · rw [he] at hx
    exact hstore x st hx
  · rw [he] at hx
    simp at hx
    rw [← hx]
    simpa [stInv] using hstore d st0 hdd

lemma errWrite_stInv (d mid : String) (ev : ErrorEvent)
    (store : Store) (hstore : ∀ x st, store x = some st → stInv st) :
    ∀ x st, errWrite d mid ev store x = some st → stInv st := by
  intro x st hx
  rcases errWrite_entry d mid ev store x with he | ⟨st0, hdd, hxd, he⟩
  · rw [he] at hx
    exact hstore x st hx
  · rw [he] at hx
    simp at hx
    rw [← hx]
    simpa [stInv] using hstore d st0 hdd

/-- Invariant preservation by every operation the component performs:
only the fallback patch writes either video-health flag, and it writes
both together. -/
lemma applyOp_stInv (op : Op) (store : Store)
    (hstore : ∀ x st, store x = some st → stInv st) :
    ∀ x st, applyOp op store x = some st → stInv st := by
  cases op with
  | initOk d => exact update_stInv d _ (Or.inl ⟨rfl, rfl⟩) store hstore
  | initErr d msg => exact update_stInv d _ (Or.inl ⟨rfl, rfl⟩) store hstore
  | sendUser d snap u => exact update_stInv d _ (Or.inl ⟨rfl, rfl⟩) store hstore
  | sendPlaceholder d snap u a => exact update_stInv d _ (Or.inl ⟨rfl, rfl⟩) store hstore
  | sendSetStream d h => exact update_stInv d _ (Or.inl ⟨rfl, rfl⟩) store hstore
  | screenshotOk d data => exact update_stInv d _ (Or.inl ⟨rfl, rfl⟩) store hstore
  | resetDevice d => exact update_stInv d _ (Or.inl ⟨rfl, rfl⟩) store hstore
  | clearStream d => exact update_stInv d _ (Or.inl ⟨rfl, rfl⟩) store hstore
  | setDisplayMode d m => exact update_stInv d _ (Or.inl ⟨rfl, rfl⟩) store hstore
  | videoFallback d => exact update_stInv d _ (Or.inr ⟨rfl, rfl⟩) store hstore
  | setTapFeedback d msg => exact update_stInv d _ (Or.inl ⟨rfl, rfl⟩) store hstore
  | stepEv d mid th ac n => exact stepWrite_stInv d mid th ac n store hstore
  | doneEv d mid ev => exact doneWrite_stInv d mid ev store hstore
  | errorEv d mid ev => exact errWrite_stInv d mid ev store hstore

lemma applyOps_stInv (ops : List Op) :
    ∀ store : Store, (∀ x st, store x = some st → stInv st) →
      ∀ x st, applyOps ops store x = some st → stInv st := by
  induction ops with
  | nil => intro store hstore x st hx; exact hstore x st hx
  | cons op rest ih =>
      intro store hstore x st hx
      exact ih (applyOp op store) (applyOp_stInv op store hstore) x st hx

/-- Claim C9: in every reachable store state every device record
satisfies useVideoStream = not videoStreamFailed, so the extra
useVideoStream conjunct in the auto-mode render condition is redundant:
the condition equals the one that checks not videoStreamFailed alone. -/
theorem use_video_stream_redundant :
    (∀ (ops : List Op) (x : String) (st : DeviceState),
        applyOps ops emptyStore x = some st → st.useVideoStream = !st.videoStreamFailed) ∧
    (∀ st : DeviceState, st.useVideoStream = !st.videoStreamFailed →
        renderVideoCond st = renderVideoCondSpec st) := by
  constructor
  · intro ops x st hx
    have hempty : ∀ x st, emptyStore x = some st → stInv st := by
      intro x st hx
      simp [emptyStore] at hx
    exact applyOps_stInv ops emptyStore hempty x st hx
  · intro st hinv
    rcases st with ⟨msgs, l, e, i, cs, sc, uvs, vsf, dm, tf⟩
    cases dm <;> cases vsf <;>
      simp_all [renderVideoCond, renderVideoCondSpec]

theorem use_video_stream_redundant_witness :
    (({ defaultDeviceState with useVideoStream := false, videoStreamFailed := true } :
        DeviceState).useVideoStream =
      !({ defaultDeviceState with useVideoStream := false, videoStreamFailed := true } :
        DeviceState).videoStreamFailed) ∧
    renderVideoCond defaultDeviceState = renderVideoCondSpec defaultDeviceState := by
  have h := use_video_stream_redundant
  exact ⟨h.1 [Op.videoFallback "D1"] "D1"
      { defaultDeviceState with useVideoStream := false, videoStreamFailed := true }
      (by decide),
    h.2 defaultDeviceState rfl⟩

/-! Stickiness of videoStreamFailed. -/

lemma update_vsf_sticky (dd : String) (p : DevicePatch)
    (hp : p.videoStreamFailed = none ∨ p.videoStreamFailed = some true)
    (store : Store) (d : String) (st : DeviceState) (h : store d = some st) :
    ∃ st', updateDeviceState dd p store d = some st' ∧
      (st.videoStreamFailed = true → st'.videoStreamFailed = true) := by
  by_cases hd : d = dd
  · subst hd
    refine ⟨mergeState st p, ?_, ?_⟩
    · simp [updateDeviceState, h]
    · intro hv
      rcases hp with h1 | h1 <;> simp [mergeState, h1, hv]
  · exact ⟨st, by rw [updateDeviceState_ne dd p store d hd]; exact h, fun hv => hv⟩

lemma applyOp_vsf_sticky (op : Op) (store : Store) (d : String) (st : DeviceState)
    (h : store d = some st) :
    ∃ st', applyOp op store d = some st' ∧
      (st.videoStreamFailed = true → st'.videoStreamFailed = true) := by
  cases op with
  | initOk dd => exact update_vsf_sticky dd _ (Or.inl rfl) store d st h
  | initErr dd msg => exact update_vsf_sticky dd _ (Or.inl rfl) store d st h
  | sendUser dd snap u => exact update_vsf_sticky dd _ (Or.inl rfl) store d st h
  | sendPlaceholder dd snap u a => exact update_vsf_sticky dd _ (Or.inl rfl) store d st h
  | sendSetStream dd hh => exact update_vsf_sticky dd _ (Or.inl rfl) store d st h
  | screenshotOk dd data => exact update_vsf_sticky dd _ (Or.inl rfl) store d st h
  | resetDevice dd => exact update_vsf_sticky dd _ (Or.inl rfl) store d st h
  | clearStream dd => exact update_vsf_sticky dd _ (Or.inl rfl) store d st h
  | setDisplayMode dd m => exact update_vsf_sticky dd _ (Or.inl rfl) store d st h
  | videoFallback dd => exact update_vsf_sticky dd _ (Or.inr rfl) store d st h
  | setTapFeedback dd msg => exact update_vsf_sticky dd _ (Or.inl rfl) store d st h
  | stepEv dd mid th ac n =>
      rcases stepWrite_entry dd mid th ac n store d with he | ⟨st0, hdd, hxd, he⟩
      · exact ⟨st, by show stepWrite dd mid th ac n store d = some st; rw [he]; exact h,
          fun hv => hv⟩
      · subst hxd
        rw [h] at hdd
        cases hdd
        exact ⟨_, he, fun hv => by simpa using hv⟩
  | doneEv dd mid ev =>
      rcases doneWrite_entry dd mid ev store d with he | ⟨st0, hdd, hxd, he⟩
      · exact ⟨st, by show doneWrite dd mid ev store d = some st; rw [he]; exact h,
          fun hv => hv⟩
      · subst hxd
        rw [h] at hdd
        cases hdd
        exact ⟨_, he, fun hv => by simpa using hv⟩
  | errorEv dd mid ev =>
      rcases errWrite_entry dd mid ev store d with he | ⟨st0, hdd, hxd, he⟩
      · exact ⟨st, by show errWrite dd mid ev store d = some st; rw [he]; exact h,
          fun hv => hv⟩
      · subst hxd
        rw [h] at hdd
        cases hdd
        exact ⟨_, he, fun hv => by simpa using hv⟩

lemma applyOps_vsf_sticky (ops : List Op) :
    ∀ (store : Store) (d : String) (st : DeviceState), store d = some st →
      st.videoStreamFailed = true →
      ∃ st', applyOps ops store d = some st' ∧ st'.videoStreamFailed = true := by
  induction ops with
  | nil => intro store d st h hv; exact ⟨st, h, hv⟩
  | cons op rest ih =>
      intro store d st h hv
      obtain ⟨st1, h1, h2⟩ := applyOp_vsf_sticky op store d st h
      exact ih (applyOp op store) d st1 h1 (h2 hv)

/-- Claim C6: once a device's videoStreamFailed flag is true, no
operation of the component (including switching displayMode away from
auto and back) ever clears it, and whenever the device is in auto mode
its effective display mode is screenshot. -/
theorem video_fallback_is_sticky
    (ops : List Op) (store : Store) (d : String) (st : DeviceState)
    (h : store d = some st) (hf : st.videoStreamFailed = true) :
    ∃ st', applyOps ops store d = some st' ∧ st'.videoStreamFailed = true ∧
      (st'.displayMode = DisplayMode.auto →
        effectiveMode st'.displayMode st'.videoStreamFailed = EffMode.screenshot) := by
  obtain ⟨st', h1, h2⟩ := applyOps_vsf_sticky ops store d st h hf
  refine ⟨st', h1, h2, fun hdm => ?_⟩
  rw [hdm, h2]
  rfl

theorem video_fallback_is_sticky_witness :
    ∃ st', applyOps
        [Op.setDisplayMode "D1" DisplayMode.video, Op.setDisplayMode "D1" DisplayMode.auto]
        (fun x => if x = "D1" then
          some { defaultDeviceState with useVideoStream := false, videoStreamFailed := true }
          else none) "D1" = some st' ∧
      st'.videoStreamFailed = true ∧
      (st'.displayMode = DisplayMode.auto →
        effectiveMode st'.displayMode st'.videoStreamFailed = EffMode.screenshot) :=
  video_fallback_is_sticky
    [Op.setDisplayMode "D1" DisplayMode.video, Op.setDisplayMode "D1" DisplayMode.auto]
    (fun x => if x = "D1" then
      some { defaultDeviceState with useVideoStream := false, videoStreamFailed := true }
      else none) "D1"
    { defaultDeviceState with useVideoStream := false, videoStreamFailed := true }
    (by decide) rfl

/-- Invariant of one send's run: if the placeholder's thinking and
actions arrays currently equal the private buffers, then after running
the remaining items they equal the buffers extended by exactly the step
events of those items, in order; interleaved operations on other devices
do not disturb this. -/
lemma runSend_spec (d mid : String) :
    ∀ (items : List SendItem) (refs : SendRefs) (store : Store) (st : DeviceState)
      (m : Message),
      (∀ i ∈ items, SendItem.offDevice d i = true) →
      store d = some st →
      findMsg st.messages mid = some m →
      m.thinking = some refs.thinking →
      m.actions = some refs.actions →
      ∃ st' m',
        (runSend d mid items refs store).2 d = some st' ∧
        findMsg st'.messages mid = some m' ∧
        m'.thinking = some (refs.thinking ++ (stepEvents items).map StepEvent.thinking) ∧
        m'.actions = some (refs.actions ++ (stepEvents items).map StepEvent.action) ∧
        (runSend d mid items refs store).1 =
          SendRefs.mk (refs.thinking ++ (stepEvents items).map StepEvent.thinking)
            (refs.actions ++ (stepEvents items).map StepEvent.action) := by
  intro items
  induction items with
  | nil =>
      intro refs store st m hdev hst hm hth hac
      refine ⟨st, m, hst, hm, ?_, ?_, ?_⟩
      · rw [hth]; simp [stepEvents]
      · rw [hac]; simp [stepEvents]
      · simp [runSend, stepEvents]
  | cons i rest ih =>
      intro refs store st m hdev hst hm hth hac
      cases i with
      | step ev =>
          have hf : ∀ x : Message,
              ((fun msg =>
                if msg.id == mid then
                  { msg with thinking := some (refs.thinking ++ [ev.thinking]),
                             actions := some (refs.actions ++ [ev.action]),
                             steps := some ev.step }
                else msg) x).id = x.id := by
            intro x
            by_cases hxm : (x.id == mid) = true <;> simp [hxm]
          have hst1 :
              stepWrite d mid (refs.thinking ++ [ev.thinking]) (refs.actions ++ [ev.action])
                ev.step store d =
              some { st with messages := st.messages.map fun msg =>
                if msg.id == mid then
                  { msg with thinking := some (refs.thinking ++ [ev.thinking]),
                             actions := some (refs.actions ++ [ev.action]),
                             steps := some ev.step }
                else msg } := by
            simp [stepWrite, hst]
          have hmid : (m.id == mid) = true := findMsg_id st.messages mid m hm
          have hm1 := findMsg_map _ hf mid st.messages m hm
          obtain ⟨st', m', h1, h2, h3, h4, h5⟩ :=
            ih (SendRefs.mk (refs.thinking ++ [ev.thinking]) (refs.actions ++ [ev.action]))
              (stepWrite d mid (refs.thinking ++ [ev.thinking])
                (refs.actions ++ [ev.action]) ev.step store)
              { st with messages := st.messages.map fun msg =>
                  if msg.id == mid then
                    { msg with thinking := some (refs.thinking ++ [ev.thinking]),
                               actions := some (refs.actions ++ [ev.action]),
                               steps := some ev.step }
                  else msg }
              (if m.id == mid then
                { m with thinking := some (refs.thinking ++ [ev.thinking]),
                         actions := some (refs.actions ++ [ev.action]),
                         steps := some ev.step }
               else m)
              (fun j hj => hdev j (List.mem_cons_of_mem _ hj)) hst1 hm1
              (by simp [hmid]) (by simp [hmid])
          refine ⟨st', m', ?_, h2, ?_, ?_, ?_⟩
          · simpa [runSend, onStepRun] using h1
          · rw [h3]
            simp [stepEvents]
          · rw [h4]
            simp [stepEvents]
          · simp only [runSend, onStepRun]
            rw [h5]
            simp [stepEvents]
      | other op =>
          have hod : Op.dev op ≠ d := by
            have hx := hdev (SendItem.other op) (by simp)
            simp [SendItem.offDevice] at hx
            exact hx
          have hframe : applyOp op store d = store d :=
            applyOp_frame op store d (Ne.symm hod)
          have hst1 : applyOp op store d = some st := by rw [hframe]; exact hst
          obtain ⟨st', m', h1, h2, h3, h4, h5⟩ :=
            ih refs (applyOp op store) st m
              (fun j hj => hdev j (List.mem_cons_of_mem _ hj)) hst1 hm hth hac
          exact ⟨st', m', by simpa [runSend] using h1, h2,
            by rw [h3]; simp [stepEvents], by rw [h4]; simp [stepEvents],
            by simp only [runSend]; rw [h5]; simp [stepEvents]⟩

/-- Claim C2: starting from the freshly reset buffers, after any send
history the placeholder message's thinking and actions arrays equal, in
order, exactly the step events' thinking and action values, regardless
of interleaved operations on other devices; the buffers end up equal to
the same sequences; and a single onStep store write keeps every message
whose id differs from the placeholder id. -/
theorem step_events_accumulate (d mid : String) (items : List SendItem)
    (store : Store) (st : DeviceState) (m : Message)
    (hdev : ∀ i ∈ items, SendItem.offDevice d i = true)
    (hst : store d = some st)
    (hm : findMsg st.messages mid = some m)
    (hth : m.thinking = some []) (hac : m.actions = some []) :
    (∃ st' m',
      (runSend d mid items ⟨[], []⟩ store).2 d = some st' ∧
      findMsg st'.messages mid = some m' ∧
      m'.thinking = some ((stepEvents items).map StepEvent.thinking) ∧
      m'.actions = some ((stepEvents items).map StepEvent.action) ∧
      (runSend d mid items ⟨[], []⟩ store).1 =
        SendRefs.mk ((stepEvents items).map StepEvent.thinking)
          ((stepEvents items).map StepEvent.action)) ∧
    (∀ (s2 : Store) (stx : DeviceState) (mx : Message) (th ac : List String) (n : Nat),
      s2 d = some stx → mx ∈ stx.messages → (mx.id == mid) = false →
      ∃ stx', stepWrite d mid th ac n s2 d = some stx' ∧ mx ∈ stx'.messages) := by
  constructor
  · obtain ⟨st', m', h1, h2, h3, h4, h5⟩ :=
      runSend_spec d mid items ⟨[], []⟩ store st m hdev hst hm hth hac
    exact ⟨st', m', h1, h2, by simpa using h3, by simpa using h4, by simpa using h5⟩
  · intro s2 stx mx th ac n hs2 hmx hne
    refine ⟨{ stx with messages := stx.messages.map fun msg =>
        if msg.id == mid then
          { msg with thinking := some th, actions := some ac, steps := some n }
        else msg }, by simp [stepWrite, hs2], ?_⟩
    have hmem := List.mem_map_of_mem (fun msg =>
        if msg.id == mid then
          { msg with thinking := some th, actions := some ac, steps := some n }
        else msg) hmx
    simpa [hne] using hmem

/-- A concrete store for witnesses: device D1 holds one placeholder
agent message with id a1 and empty accumulation arrays. -/
def witStore : Store := fun x =>
  if x = "D1" then
    some { defaultDeviceState with
      messages := [{ id := "a1", role := Role.agent, content := "", timestamp := 0,
                     thinking := some [], actions := some [], isStreaming := some true }] }
  else none

def witPlaceholder : Message :=
  { id := "a1", role := Role.agent, content := "", timestamp := 0,
    thinking := some [], actions := some [], isStreaming := some true }

def witItems : List SendItem :=
  [SendItem.step ⟨1, "t1", "x1"⟩,
   SendItem.other (Op.setDisplayMode "D2" DisplayMode.video),
   SendItem.step ⟨2, "t2", "x2"⟩]

theorem step_events_accumulate_witness :
    (∃ st' m',
      (runSend "D1" "a1" witItems ⟨[], []⟩ witStore).2 "D1" = some st' ∧
      findMsg st'.messages "a1" = some m' ∧
      m'.thinking = some ((stepEvents witItems).map StepEvent.thinking) ∧
      m'.actions = some ((stepEvents witItems).map StepEvent.action) ∧
      (runSend "D1" "a1" witItems ⟨[], []⟩ witStore).1 =
        SendRefs.mk ((stepEvents witItems).map StepEvent.thinking)
          ((stepEvents witItems).map StepEvent.action)) ∧
    (∀ (s2 : Store) (stx : DeviceState) (mx : Message) (th ac : List String) (n : Nat),
      s2 "D1" = some stx → mx ∈ stx.messages → (mx.id == "a1") = false →
      ∃ stx', stepWrite "D1" "a1" th ac n s2 "D1" = some stx' ∧ mx ∈ stx'.messages) :=
  step_events_accumulate "D1" "a1" witItems witStore
    { defaultDeviceState with messages := [witPlaceholder] } witPlaceholder
    (by decide) (by decide) (by decide) rfl rfl

/-! Concrete scenario for claim C1: a done event of a previous send
lands between handleSend's two sequential updates. -/

def c1prev : Message :=
  { id := "m0", role := Role.agent, content := "", timestamp := 0, isStreaming := some true }

def c1user : Message :=
  { id := "u1", role := Role.user, content := "hi", timestamp := 1 }

def c1agent : Message :=
  { id := "a2", role := Role.agent, content := "", timestamp := 2,
    thinking := some [], actions := some [], isStreaming := some true }

def c1store : Store := fun x =>
  if x = "D1" then some { defaultDeviceState with messages := [c1prev] } else none

/-- The store after handleSend's first update, then the interleaved
onDone write of a previous send, then handleSend's second update. -/
def c1mid : Store :=
  doneWrite "D1" "m0" ⟨"prev done", true⟩ (handleSendUpdate1 "D1" [c1prev] c1user c1store)

def c1final : Store := handleSendUpdate2 "D1" [c1prev] c1user c1agent c1mid

/-- Counterexample to claim C1 as stated: the onDone update that landed
between handleSend's two sequential updates set message m0's content to
"prev done" (first conjunct), but the resulting device state after the
second update does not contain that effect: m0's content is back to the
empty string of the render-time snapshot, because the second update
overwrites messages with a list derived from the snapshot captured by
handleSend's closure. -/
theorem handle_send_loses_interleaved_message_update :
    (c1mid "D1").map (fun s => s.messages.map Message.content) =
      some ["prev done", "hi"] ∧
    (c1final "D1").map (fun s => s.messages.map Message.content) =
      some ["", "hi", ""] := by
  constructor <;> decide

/-- Claim C1 amended: every updateDeviceState call merges its patch into
the store snapshot current at application time, so for an update landing
between handleSend's two calls every patched field other than messages
survives into the resulting device state (and updates to other devices
survive entirely, by the C4 isolation theorem); only an interleaved write
to this device's messages field is overwritten by the second call, whose
messages value is derived from the snapshot captured when handleSend
rendered. -/
theorem update_merges_latest_snapshot (d : String) (p : DevicePatch) (store : Store)
    (st0 : DeviceState) (snap : List Message) (u a : Message)
    (h0 : store d = some st0) :
    ∃ st, handleSendUpdate2 d snap u a
        (updateDeviceState d p (handleSendUpdate1 d snap u store)) d = some st ∧
      st.messages = snap ++ [u, a] ∧
      st.loading = p.loading.getD true ∧
      st.error = p.error.getD none ∧
      st.inited = p.inited.getD st0.inited ∧
      st.currentStream = p.currentStream.getD st0.currentStream ∧
      st.screenshot = p.screenshot.getD st0.screenshot ∧
      st.useVideoStream = p.useVideoStream.getD st0.useVideoStream ∧
      st.videoStreamFailed = p.videoStreamFailed.getD st0.videoStreamFailed ∧
      st.displayMode = p.displayMode.getD st0.displayMode ∧
      st.tapFeedback = p.tapFeedback.getD st0.tapFeedback := by
  refine ⟨mergeState (mergeState (mergeState st0
      { messages := some (snap ++ [u]), loading := some true, error := some none }) p)
      { messages := some (snap ++ [u, a]) }, ?_, ?_, ?_, ?_, ?_, ?_, ?_, ?_, ?_, ?_, ?_⟩
  · simp [handleSendUpdate1, handleSendUpdate2, updateDeviceState, h0]
  all_goals simp [mergeState]

theorem update_merges_latest_snapshot_witness :
    ∃ st, handleSendUpdate2 "D1" [c1prev] c1user c1agent
        (updateDeviceState "D1"
          { loading := some false, screenshot := some (some ⟨true, "z", 1, 1, false, none⟩) }
          (handleSendUpdate1 "D1" [c1prev] c1user c1store)) "D1" = some st ∧
      st.messages = [c1prev] ++ [c1user, c1agent] ∧
      st.loading = (some false).getD true ∧
      st.error = (none : Option (Option String)).getD none ∧
      st.inited = (none : Option Bool).getD
        ({ defaultDeviceState with messages := [c1prev] } : DeviceState).inited ∧
      st.currentStream = (none : Option (Option StreamHandle)).getD
        ({ defaultDeviceState with messages := [c1prev] } : DeviceState).currentStream ∧
      st.screenshot = (some (some ⟨true, "z", 1, 1, false, none⟩)).getD
        ({ defaultDeviceState with messages := [c1prev] } : DeviceState).screenshot ∧
      st.useVideoStream = (none : Option Bool).getD
        ({ defaultDeviceState with messages := [c1prev] } : DeviceState).useVideoStream ∧
      st.videoStreamFailed = (none : Option Bool).getD
        ({ defaultDeviceState with messages := [c1prev] } : DeviceState).videoStreamFailed ∧
      st.displayMode = (none : Option DisplayMode).getD
        ({ defaultDeviceState with messages := [c1prev] } : DeviceState).displayMode ∧
      st.tapFeedback = (none : Option (Option String)).getD
        ({ defaultDeviceState with messages := [c1prev] } : DeviceState).tapFeedback :=
  update_merges_latest_snapshot "D1"
    { loading := some false, screenshot := some (some ⟨true, "z", 1, 1, false, none⟩) }
    c1store { defaultDeviceState with messages := [c1prev] } [c1prev] c1user c1agent
    (by decide)

/-! Concrete scenario for claim C5: a step event delivered after done. -/

def c5store : Store := fun x =>
  if x = "D1" then
    some { defaultDeviceState with
      messages := [witPlaceholder], loading := true, currentStream := some ⟨7, false⟩ }
  else none

def c5afterDone : Store := doneWrite "D1" "a1" ⟨"Done", true⟩ c5store

def c5afterLateStep : Store := stepWrite "D1" "a1" ["late"] ["act"] 9 c5afterDone

/-- Counterexample to claim C5 as stated: after onDone has finalized the
placeholder (thinking still the empty array), a step event that is
delivered afterwards is still applied — the onStep store write has no
isStreaming guard — so the placeholder's thinking array changes and the
device state is mutated, contradicting "no further onStep effects are
applied". -/
theorem late_step_after_done_mutates :
    (c5afterDone "D1").map (fun s => s.messages.map Message.thinking) =
      some [some []] ∧
    (c5afterLateStep "D1").map (fun s => s.messages.map Message.thinking) =
      some [some ["late"]] ∧
    c5afterLateStep "D1" ≠ c5afterDone "D1" := by
  refine ⟨?_, ?_, ?_⟩ <;> decide

/-- Claim C5 amended: onDone sets the placeholder's content and success
from the event and ends streaming, clearing loading and the stream
handle; onError does the same with a formatted error string, success
false, and the device error field set; and although a step event
delivered afterwards is still applied to the placeholder's thinking,
actions and steps fields (the code has no guard against it), it cannot
change the finalized content, success, isStreaming, loading, error, or
the cleared stream handle. -/
theorem done_error_finalize (d mid : String) (store : Store) (st : DeviceState)
    (evd : DoneEvent) (eve : ErrorEvent) (m : Message)
    (hst : store d = some st) (hm : findMsg st.messages mid = some m) :
    (∃ st1 m1, doneWrite d mid evd store d = some st1 ∧ st1.loading = false ∧
      st1.currentStream = none ∧ findMsg st1.messages mid = some m1 ∧
      m1.content = evd.message ∧ m1.success = some evd.success ∧
      m1.isStreaming = some false) ∧
    (∃ st2 m2, errWrite d mid eve store d = some st2 ∧ st2.loading = false ∧
      st2.currentStream = none ∧ st2.error = some eve.message ∧
      findMsg st2.messages mid = some m2 ∧
      m2.content = "错误: " ++ eve.message ∧ m2.success = some false ∧
      m2.isStreaming = some false) ∧
    (∀ (th ac : List String) (n : Nat),
      ∃ st3 m3, stepWrite d mid th ac n store d = some st3 ∧
        st3.loading = st.loading ∧ st3.currentStream = st.currentStream ∧
        st3.error = st.error ∧
        findMsg st3.messages mid = some m3 ∧
        m3.content = m.content ∧ m3.success = m.success ∧
        m3.isStreaming = m.isStreaming) := by
  have hmid : (m.id == mid) = true := findMsg_id st.messages mid m hm
  refine ⟨?_, ?_, ?_⟩
  · have hf : ∀ x : Message,
        ((fun msg => if msg.id == mid then
            { msg with content := evd.message, success := some evd.success,
                       isStreaming := some false }
          else msg) x).id = x.id := by
      intro x
      by_cases hxm : (x.id == mid) = true <;> simp [hxm]
    refine ⟨{ st with
        messages := st.messages.map fun msg =>
          if msg.id == mid then
            { msg with content := evd.message, success := some evd.success,
                       isStreaming := some false }
          else msg,
        loading := false, currentStream := none },
      { m with content := evd.message, success := some evd.success,
               isStreaming := some false }, ?_, rfl, rfl, ?_, rfl, rfl, rfl⟩
    · simp [doneWrite, hst]
    · have hm1 := findMsg_map _ hf mid st.messages m hm
      simpa [hmid] using hm1
  · have hf : ∀ x : Message,
        ((fun msg => if msg.id == mid then
            { msg with content := "错误: " ++ eve.message, success := some false,
                       isStreaming := some false }
          else msg) x).id = x.id := by
      intro x
      by_cases hxm : (x.id == mid) = true <;> simp [hxm]
    refine ⟨{ st with
        messages := st.messages.map fun msg =>
          if msg.id == mid then
            { msg with content := "错误: " ++ eve.message, success := some false,
                       isStreaming := some false }
          else msg,
        loading := false, currentStream := none, error := some eve.message },
      { m with content := "错误: " ++ eve.message, success := some false,
               isStreaming := some false }, ?_, rfl, rfl, rfl, ?_, rfl, rfl, rfl⟩
    · simp [errWrite, hst]
    · have hm2 := findMsg_map _ hf mid st.messages m hm
      simpa [hmid] using hm2
  · intro th ac n
    have hf : ∀ x : Message,
        ((fun msg => if msg.id == mid then
            { msg with thinking := some th, actions := some ac, steps := some n }
          else msg) x).id = x.id := by
      intro x
      by_cases hxm : (x.id == mid) = true <;> simp [hxm]
    refine ⟨{ st with
        messages := st.messages.map fun msg =>
          if msg.id == mid then
            { msg with thinking := some th, actions := some ac, steps := some n }
          else msg },
      { m with thinking := some th, actions := some ac, steps := some n },
      ?_, rfl, rfl, rfl, ?_, rfl, rfl, rfl⟩
    · simp [stepWrite, hst]
    · have hm3 := findMsg_map _ hf mid st.messages m hm
      simpa [hmid] using hm3

theorem done_error_finalize_witness :
    (∃ st1 m1, doneWrite "D1" "a1" ⟨"Done", true⟩ witStore "D1" = some st1 ∧
      st1.loading = false ∧
      st1.currentStream = none ∧ findMsg st1.messages "a1" = some m1 ∧
      m1.content = ("Done" : String) ∧ m1.success = some true ∧
      m1.isStreaming = some false) ∧
    (∃ st2 m2, errWrite "D1" "a1" ⟨"boom"⟩ witStore "D1" = some st2 ∧
      st2.loading = false ∧
      st2.currentStream = none ∧ st2.error = some "boom" ∧
      findMsg st2.messages "a1" = some m2 ∧
      m2.content = "错误: " ++ "boom" ∧ m2.success = some false ∧
      m2.isStreaming = some false) ∧
    (∀ (th ac : List String) (n : Nat),
      ∃ st3 m3, stepWrite "D1" "a1" th ac n witStore "D1" = some st3 ∧
        st3.loading = ({ defaultDeviceState with
          messages := [witPlaceholder] } : DeviceState).loading ∧
        st3.currentStream = ({ defaultDeviceState with
          messages := [witPlaceholder] } : DeviceState).currentStream ∧
        st3.error = ({ defaultDeviceState with
          messages := [witPlaceholder] } : DeviceState).error ∧
        findMsg st3.messages "a1" = some m3 ∧
        m3.content = witPlaceholder.content ∧ m3.success = witPlaceholder.success ∧
        m3.isStreaming = witPlaceholder.isStreaming) :=
  done_error_finalize "D1" "a1" witStore
    { defaultDeviceState with messages := [witPlaceholder] }
    ⟨"Done", true⟩ ⟨"boom"⟩ witPlaceholder (by decide) (by decide)

example :
    (updateDeviceState "D1" { loading := some true } emptyStore) "D1" =
      some { defaultDeviceState with loading := true } := by
  decide

example :
    stepWrite "D1" "a" ["t"] ["x"] 1 emptyStore "D2" = none := by
  decide

end AutoGLM
